import Mathlib

/-!
Shallow embedding of the dotlas API client (dotlas/app.py and
dotlas/schemas/{cities,competition,sociodemographics}.py).

Python floats are modelled as rationals (ℚ), Python ints as ℤ, and
optional parameters (default `None`) as `Option`.  Python truthiness of
an optional int (`if x:` treats both `None` and `0` as false) is
`pyTruthyInt`; for an optional string (`None` and `""` are false) it is
`pyTruthyStr`.  A pydantic model whose construction may raise a
`ValidationError` is embedded as a `mk...` function returning
`Except String ...`; raising `ValueError` in a façade method is an
`Except.error`.
-/

/-- Python truthiness of an `Optional[int]`: `None` and `0` are falsy. -/
def pyTruthyInt (v : Option Int) : Bool :=
  match v with
  | none => false
  | some n => decide (n ≠ 0)

/-- Python truthiness of an `Optional[str]`: `None` and `""` are falsy. -/
def pyTruthyStr (v : Option String) : Bool :=
  match v with
  | none => false
  | some s => !s.isEmpty

/-- Python truthiness of an `Optional[List[str]]`: `None` and `[]` are falsy. -/
def pyTruthyList (v : Option (List String)) : Bool :=
  match v with
  | none => false
  | some xs => !xs.isEmpty

/-- Whether an `Except` value is a success (pydantic construction or façade
call that did not raise). -/
def isOkE {ε α : Type} (e : Except ε α) : Bool :=
  match e with
  | .ok _ => true
  | .error _ => false

namespace ReverseGeocodeRequest

/-- `ReverseGeocodeRequest.latitude_validation` (schemas/cities.py):
raises "Invalid Coordinate Inputs" unless `-90 <= latitude <= 90`. -/
def latitude_validation (latitude : ℚ) : Except String ℚ :=
  if ¬(-90 ≤ latitude ∧ latitude ≤ 90) then .error "Invalid Coordinate Inputs"
  else .ok latitude

/-- `ReverseGeocodeRequest.longitude_validation` (schemas/cities.py):
raises "Invalid Coordinate Inputs" unless `-180 <= longitude <= 180`. -/
def longitude_validation (longitude : ℚ) : Except String ℚ :=
  if ¬(-180 ≤ longitude ∧ longitude ≤ 180) then .error "Invalid Coordinate Inputs"
  else .ok longitude

end ReverseGeocodeRequest

/-- `ReverseGeocodeEndpointResponse.ReverseGeocodeRequest` (schemas/cities.py). -/
structure ReverseGeocodeRequest where
  latitude : ℚ
  longitude : ℚ
deriving DecidableEq

/-- Construction of a `ReverseGeocodeRequest`: pydantic runs the two field
validators; any raise becomes a validation failure. -/
def mkReverseGeocodeRequest (latitude longitude : ℚ) :
    Except String ReverseGeocodeRequest :=
  match ReverseGeocodeRequest.latitude_validation latitude with
  | .error e => .error e
  | .ok lat =>
    match ReverseGeocodeRequest.longitude_validation longitude with
    | .error e => .error e
    | .ok lon => .ok ⟨lat, lon⟩

namespace SalesTerritoryRequest

/-- `SalesTerritoryRequest.time_minutes_valid` (schemas/sociodemographics.py). -/
def time_minutes_valid (time_minutes : Int) : Bool :=
  decide (1 ≤ time_minutes ∧ time_minutes ≤ 60)

/-- `SalesTerritoryRequest.distance_meters_valid` (schemas/sociodemographics.py). -/
def distance_meters_valid (distance_meters : Int) : Bool :=
  decide (1 ≤ distance_meters ∧ distance_meters ≤ 10000)

/-- `SalesTerritoryRequest.mode_of_mobility_valid` (schemas/sociodemographics.py). -/
def mode_of_mobility_valid (mode_of_mobility : String) : Bool :=
  mode_of_mobility == "driving" || mode_of_mobility == "walking"

/-- `SalesTerritoryRequest.latitude_validation`. -/
def latitude_validation (latitude : ℚ) : Except String ℚ :=
  if ¬(-90 ≤ latitude ∧ latitude ≤ 90) then .error "Invalid Coordinate Inputs"
  else .ok latitude

/-- `SalesTerritoryRequest.longitude_validation`. -/
def longitude_validation (longitude : ℚ) : Except String ℚ :=
  if ¬(-180 ≤ longitude ∧ longitude ≤ 180) then .error "Invalid Coordinate Inputs"
  else .ok longitude

/-- `SalesTerritoryRequest.time_minutes_validation`: the range check runs only
when the value is truthy (`if time_minutes and not ...`), so `None` and `0`
skip it. -/
def time_minutes_validation (time_minutes : Option Int) : Except String (Option Int) :=
  if pyTruthyInt time_minutes && !time_minutes_valid (time_minutes.getD 0) then
    .error "time_minutes parameter not in range 1-60"
  else .ok time_minutes

/-- `SalesTerritoryRequest.distance_meters_validation`: same truthiness guard. -/
def distance_meters_validation (distance_meters : Option Int) : Except String (Option Int) :=
  if pyTruthyInt distance_meters && !distance_meters_valid (distance_meters.getD 0) then
    .error "distance_meters parameter not in range 1-10,000"
  else .ok distance_meters

/-- `SalesTerritoryRequest.mode_of_mobility_validation`: the membership check
runs only when the value is truthy, so `None` and `""` skip it. -/
def mode_of_mobility_validation (mode_of_mobility : Option String) :
    Except String (Option String) :=
  if pyTruthyStr mode_of_mobility && !mode_of_mobility_valid (mode_of_mobility.getD "") then
    .error "mode_of_mobility parameter invalid. Must be one of driving, walking"
  else .ok mode_of_mobility

end SalesTerritoryRequest

/-- `SalesTerritoryRequest` (schemas/sociodemographics.py): required
coordinates and city, optional mode/time/distance defaulting to `None`. -/
structure SalesTerritoryRequest where
  latitude : ℚ
  longitude : ℚ
  city : String
  mode_of_mobility : Option String
  time_minutes : Option Int
  distance_meters : Option Int
deriving DecidableEq

/-- Construction of a `SalesTerritoryRequest`: pydantic runs the field
validators in field declaration order. -/
def mkSalesTerritoryRequest (latitude longitude : ℚ) (city : String)
    (mode_of_mobility : Option String) (time_minutes distance_meters : Option Int) :
    Except String SalesTerritoryRequest :=
  match SalesTerritoryRequest.latitude_validation latitude with
  | .error e => .error e
  | .ok lat =>
    match SalesTerritoryRequest.longitude_validation longitude with
    | .error e => .error e
    | .ok lon =>
      match SalesTerritoryRequest.mode_of_mobility_validation mode_of_mobility with
      | .error e => .error e
      | .ok mode =>
        match SalesTerritoryRequest.time_minutes_validation time_minutes with
        | .error e => .error e
        | .ok t =>
          match SalesTerritoryRequest.distance_meters_validation distance_meters with
          | .error e => .error e
          | .ok d => .ok ⟨lat, lon, city, mode, t, d⟩

namespace CompetitionRequest

/-- `CompetitionRequest.radius_meters_valid` (schemas/competition.py). -/
def radius_meters_valid (radius_meters : Int) : Bool :=
  decide (1 ≤ radius_meters ∧ radius_meters ≤ 10000)

/-- `CompetitionRequest.latitude_validation`. -/
def latitude_validation (latitude : ℚ) : Except String ℚ :=
  if ¬(-90 ≤ latitude ∧ latitude ≤ 90) then .error "Invalid Coordinate Inputs"
  else .ok latitude

/-- `CompetitionRequest.longitude_validation`. -/
def longitude_validation (longitude : ℚ) : Except String ℚ :=
  if ¬(-180 ≤ longitude ∧ longitude ≤ 180) then .error "Invalid Coordinate Inputs"
  else .ok longitude

/-- `CompetitionRequest.radius_meters_validation`: unconditional range check
(no truthiness guard, unlike the sales-territory validators). -/
def radius_meters_validation (radius_meters : Int) : Except String Int :=
  if ¬radius_meters_valid radius_meters then
    .error "Radius Meters not in range of 1 mile"
  else .ok radius_meters

end CompetitionRequest

/-- `CompetitionEndpointResponse.CompetitionRequest` (schemas/competition.py).
Its optional list fields are named `brands` / `categories`. -/
structure CompetitionRequest where
  latitude : ℚ
  longitude : ℚ
  city : String
  commercial_type : String
  radius_meters : Int
  brands : Option (List String)
  categories : Option (List String)
deriving DecidableEq

/-- Construction of a `CompetitionRequest`: the three field validators run in
field declaration order. -/
def mkCompetitionRequest (latitude longitude : ℚ) (city commercial_type : String)
    (radius_meters : Int) (brands categories : Option (List String)) :
    Except String CompetitionRequest :=
  match CompetitionRequest.latitude_validation latitude with
  | .error e => .error e
  | .ok lat =>
    match CompetitionRequest.longitude_validation longitude with
    | .error e => .error e
    | .ok lon =>
      match CompetitionRequest.radius_meters_validation radius_meters with
      | .error e => .error e
      | .ok r => .ok ⟨lat, lon, city, commercial_type, r, brands, categories⟩

namespace GenericInsightsRequests

/-- `GenericInsightsRequests.price_range_validation` (schemas/competition.py):
`if price_range and price_range < 1: raise` — the check runs only when the
value is truthy, so `None` and `0` skip it. -/
def price_range_validation (price_range : Option Int) : Except String (Option Int) :=
  if pyTruthyInt price_range && decide (price_range.getD 0 < 1) then
    .error "Invalid Price Range"
  else .ok price_range

end GenericInsightsRequests

/-- `GenericInsightsRequests` (schemas/competition.py). -/
structure GenericInsightsRequests where
  city : String
  commercial_type : String
  categories : Option (List String)
  price_range : Option Int
deriving DecidableEq

/-- Construction of a `GenericInsightsRequests`: only `price_range` has a
validator. -/
def mkGenericInsightsRequests (city commercial_type : String)
    (categories : Option (List String)) (price_range : Option Int) :
    Except String GenericInsightsRequests :=
  match GenericInsightsRequests.price_range_validation price_range with
  | .error e => .error e
  | .ok p => .ok ⟨city, commercial_type, categories, p⟩

/-- `OperatingHours` (schemas/competition.py): seven required `List[int]`
weekday fields.  Pydantic places no constraint on list length or on the
integer values. -/
structure OperatingHours where
  sunday : List Int
  monday : List Int
  tuesday : List Int
  wednesday : List Int
  thursday : List Int
  friday : List Int
  saturday : List Int
deriving DecidableEq

/-- Construction of an `OperatingHours` from per-field data where `none`
models an absent field: every field is required, so construction fails
exactly when some field is absent (pydantic: "field required"). -/
def mkOperatingHours (sunday monday tuesday wednesday thursday friday saturday :
    Option (List Int)) : Except String OperatingHours :=
  match sunday, monday, tuesday, wednesday, thursday, friday, saturday with
  | some su, some mo, some tu, some we, some th, some fr, some sa =>
      .ok ⟨su, mo, tu, we, th, fr, sa⟩
  | _, _, _, _, _, _, _ => .error "field required"

/-! ### The API façade (dotlas/app.py) -/

/-- A query-parameter value as placed in the `params` dict by the façade. -/
inductive ParamValue where
  | pRat (q : ℚ)
  | pStr (s : String)
  | pOptStr (s : Option String)
  | pInt (n : Int)
  | pOptList (xs : Option (List String))
deriving DecidableEq

/-- The outbound HTTP request an `App` method hands to `__generic_fetch`:
the URL (the Python local `url` is initialised to `None`) and the `params`
dict, as an association list in insertion order. -/
structure BuiltRequest where
  url : Option String
  params : List (String × ParamValue)
deriving DecidableEq

/-- `App.__base_url`. -/
def base_url : String := "https://api.dotlas.com"

/-- `App.__sociodemographics_url`. -/
def sociodemographics_url : String := base_url ++ "/socio-demographics"

/-- `App.__competition_url`. -/
def competition_url : String := base_url ++ "/competition"

/-- `App.__cities_url`. -/
def cities_url : String := base_url ++ "/cities"

/-- `App.sales_territory` up to (and excluding) the network call: the
pre-flight checks, descriptor validation and request construction.
`Except.error` is a raised `ValueError`; `Except.ok` is the request passed
to `__generic_fetch`. -/
def sales_territory (latitude longitude : ℚ) (city : String)
    (mode_of_mobility : Option String) (time_minutes distance_meters : Option Int) :
    Except String BuiltRequest :=
  if !(pyTruthyInt time_minutes || pyTruthyInt distance_meters) then
    .error "Either time_minutes or distance_meters parameters must be specified"
  else
    match mkSalesTerritoryRequest latitude longitude city mode_of_mobility
        time_minutes distance_meters with
    | .error e => .error e
    | .ok _ =>
      let params : List (String × ParamValue) :=
        [("latitude", .pRat latitude), ("longitude", .pRat longitude),
         ("city", .pStr city), ("mode_of_mobility", .pOptStr mode_of_mobility)]
      if pyTruthyInt time_minutes then
        if !pyTruthyStr mode_of_mobility then
          .error "Mode of Mobility parameter must be provided for time-based sales territory derivation"
        else
          .ok ⟨some (sociodemographics_url ++ "/sales_territory/time"),
               params ++ [("time_minutes", .pInt (time_minutes.getD 0))]⟩
      else if pyTruthyInt distance_meters then
        .ok ⟨some (sociodemographics_url ++ "/sales_territory/distance"),
             params ++ [("distance_meters", .pInt (distance_meters.getD 0))]⟩
      else
        .ok ⟨none, params⟩

/-- `App.nearby_competition` up to the network call.  The keyword arguments
`brand_filters` / `category_filters` passed to the pydantic model do not
match its declared fields `brands` / `categories`; pydantic v1 ignores the
extra keywords, so the model's list fields stay `None`. -/
def nearby_competition (latitude longitude : ℚ) (city commercial_type : String)
    (radius_meters : Int) (brand_filters category_filters : Option (List String)) :
    Except String BuiltRequest :=
  match mkCompetitionRequest latitude longitude city commercial_type
      radius_meters none none with
  | .error e => .error e
  | .ok _ =>
    .ok ⟨some (competition_url ++ "/nearby/" ++ commercial_type),
         [("latitude", .pRat latitude), ("longitude", .pRat longitude),
          ("city", .pStr city), ("radius_meters", .pInt radius_meters),
          ("brand_filters", .pOptList brand_filters),
          ("category_filters", .pOptList category_filters)]⟩

/-- `App.category_insights` up to the network call (`brand_insights` and
`area_insights` differ only in the resource-path segment, abstracted as
`segment`).  When neither optional filter is truthy the `api_key` param set
is sent instead. -/
def insights_call (segment city commercial_type : String) (api_key : String)
    (categories : Option (List String)) (price_range : Option Int) :
    Except String BuiltRequest :=
  match mkGenericInsightsRequests city commercial_type categories price_range with
  | .error e => .error e
  | .ok _ =>
    let params : List (String × ParamValue) :=
      (if pyTruthyList categories then
        [("categories", .pOptList categories)] else [])
      ++ (if pyTruthyInt price_range then
        [("price_range", .pInt (price_range.getD 0))] else [])
    .ok ⟨some (competition_url ++ "/insights/" ++ segment ++ "/" ++ city
               ++ "/" ++ commercial_type),
         if params.isEmpty then [("api_key", .pStr api_key)] else params⟩

/-! ### `App.__generic_fetch` and the transport -/

/-- An HTTP response as seen by `__generic_fetch`: status code and decoded
JSON body (kept abstract as a string, since the fetch helper never inspects
it beyond returning it). -/
structure HttpResponse where
  status_code : Nat
  body : String
deriving DecidableEq

/-- `requests.Response.raise_for_status`: raises `HTTPError` exactly when the
status code is a 4xx or 5xx. -/
def raise_for_status (r : HttpResponse) : Except String Unit :=
  if 400 ≤ r.status_code ∧ r.status_code < 600 then
    .error ("HTTPError " ++ toString r.status_code)
  else .ok ()

/-- `App.__generic_fetch`, given the transport's response.  Returns
`some body` on 200; raises on 404 / 422 / 403; otherwise calls
`raise_for_status` (whose `HTTPError` the `except` clause rewraps) and, when
that does not raise, falls off the end of the function returning `None`. -/
def generic_fetch (resp : HttpResponse) : Except String (Option String) :=
  if resp.status_code = 200 then .ok (some resp.body)
  else if resp.status_code = 404 then .error ("404: " ++ resp.body)
  else if resp.status_code = 422 then .error "Validation Error - Check params or body"
  else if resp.status_code = 403 then .error "Invalid API Key"
  else
    match raise_for_status resp with
    | .error e => .error ("Unable to fetch response: " ++ e)
    | .ok _ => .ok none

/-- `__generic_fetch` with the transport modelled as an oracle indexed by
invocation count: `requests.request` appears exactly once in the function
body (no loop), so one call consumes exactly one oracle index. -/
def generic_fetch_counted (transport : Nat → HttpResponse) (calls : Nat) :
    Except String (Option String) × Nat :=
  (generic_fetch (transport calls), calls + 1)

/-! ### Helper lemmas -/

theorem isOkE_ok {ε α : Type} (a : α) : isOkE (.ok a : Except ε α) = true := rfl

theorem isOkE_error {ε α : Type} (e : ε) : isOkE (.error e : Except ε α) = false := rfl

theorem rg_latitude_validation_isOk (lat : ℚ) :
    isOkE (ReverseGeocodeRequest.latitude_validation lat) = true ↔
      (-90 ≤ lat ∧ lat ≤ 90) := by
  unfold ReverseGeocodeRequest.latitude_validation
  split <;> simp_all [isOkE]

theorem rg_longitude_validation_isOk (lon : ℚ) :
    isOkE (ReverseGeocodeRequest.longitude_validation lon) = true ↔
      (-180 ≤ lon ∧ lon ≤ 180) := by
  unfold ReverseGeocodeRequest.longitude_validation
  split <;> simp_all [isOkE]

theorem st_latitude_validation_isOk (lat : ℚ) :
    isOkE (SalesTerritoryRequest.latitude_validation lat) = true ↔
      (-90 ≤ lat ∧ lat ≤ 90) := by
  unfold SalesTerritoryRequest.latitude_validation
  split <;> simp_all [isOkE]

theorem st_longitude_validation_isOk (lon : ℚ) :
    isOkE (SalesTerritoryRequest.longitude_validation lon) = true ↔
      (-180 ≤ lon ∧ lon ≤ 180) := by
  unfold SalesTerritoryRequest.longitude_validation
  split <;> simp_all [isOkE]

theorem cr_latitude_validation_isOk (lat : ℚ) :
    isOkE (CompetitionRequest.latitude_validation lat) = true ↔
      (-90 ≤ lat ∧ lat ≤ 90) := by
  unfold CompetitionRequest.latitude_validation
  split <;> simp_all [isOkE]

theorem cr_longitude_validation_isOk (lon : ℚ) :
    isOkE (CompetitionRequest.longitude_validation lon) = true ↔
      (-180 ≤ lon ∧ lon ≤ 180) := by
  unfold CompetitionRequest.longitude_validation
  split <;> simp_all [isOkE]

theorem CompetitionRequest.radius_meters_validation_isOk (r : Int) :
    isOkE (CompetitionRequest.radius_meters_validation r) = true ↔
      (1 ≤ r ∧ r ≤ 10000) := by
  unfold CompetitionRequest.radius_meters_validation CompetitionRequest.radius_meters_valid
  split <;> simp_all [isOkE]

theorem mkReverseGeocodeRequest_isOk (lat lon : ℚ) :
    isOkE (mkReverseGeocodeRequest lat lon) = true ↔
      (isOkE (ReverseGeocodeRequest.latitude_validation lat) = true ∧
       isOkE (ReverseGeocodeRequest.longitude_validation lon) = true) := by
  unfold mkReverseGeocodeRequest
  cases h1 : ReverseGeocodeRequest.latitude_validation lat <;>
    cases h2 : ReverseGeocodeRequest.longitude_validation lon <;>
      simp [isOkE]

theorem mkSalesTerritoryRequest_isOk (lat lon : ℚ) (city : String)
    (mode : Option String) (t d : Option Int) :
    isOkE (mkSalesTerritoryRequest lat lon city mode t d) = true ↔
      (isOkE (SalesTerritoryRequest.latitude_validation lat) = true ∧
       isOkE (SalesTerritoryRequest.longitude_validation lon) = true ∧
       isOkE (SalesTerritoryRequest.mode_of_mobility_validation mode) = true ∧
       isOkE (SalesTerritoryRequest.time_minutes_validation t) = true ∧
       isOkE (SalesTerritoryRequest.distance_meters_validation d) = true) := by
  unfold mkSalesTerritoryRequest
  cases h1 : SalesTerritoryRequest.latitude_validation lat <;>
    cases h2 : SalesTerritoryRequest.longitude_validation lon <;>
      cases h3 : SalesTerritoryRequest.mode_of_mobility_validation mode <;>
        cases h4 : SalesTerritoryRequest.time_minutes_validation t <;>
          cases h5 : SalesTerritoryRequest.distance_meters_validation d <;>
            simp [isOkE]

theorem mkCompetitionRequest_isOk (lat lon : ℚ) (city ctype : String)
    (r : Int) (b c : Option (List String)) :
    isOkE (mkCompetitionRequest lat lon city ctype r b c) = true ↔
      (isOkE (CompetitionRequest.latitude_validation lat) = true ∧
       isOkE (CompetitionRequest.longitude_validation lon) = true ∧
       isOkE (CompetitionRequest.radius_meters_validation r) = true) := by
  unfold mkCompetitionRequest
  cases h1 : CompetitionRequest.latitude_validation lat <;>
    cases h2 : CompetitionRequest.longitude_validation lon <;>
      cases h3 : CompetitionRequest.radius_meters_validation r <;>
        simp [isOkE]

theorem SalesTerritoryRequest.latitude_validation_ok (lat : ℚ)
    (h : -90 ≤ lat ∧ lat ≤ 90) :
    SalesTerritoryRequest.latitude_validation lat = .ok lat := by
  unfold SalesTerritoryRequest.latitude_validation
  exact if_neg (not_not_intro h)

theorem SalesTerritoryRequest.longitude_validation_ok (lon : ℚ)
    (h : -180 ≤ lon ∧ lon ≤ 180) :
    SalesTerritoryRequest.longitude_validation lon = .ok lon := by
  unfold SalesTerritoryRequest.longitude_validation
  exact if_neg (not_not_intro h)

theorem mkSalesTerritoryRequest_eq_ok (lat lon : ℚ) (city : String)
    (mode : Option String) (t d : Option Int)
    (hlat : -90 ≤ lat ∧ lat ≤ 90) (hlon : -180 ≤ lon ∧ lon ≤ 180)
    (hmode : SalesTerritoryRequest.mode_of_mobility_validation mode = .ok mode)
    (ht : SalesTerritoryRequest.time_minutes_validation t = .ok t)
    (hd : SalesTerritoryRequest.distance_meters_validation d = .ok d) :
    mkSalesTerritoryRequest lat lon city mode t d = .ok ⟨lat, lon, city, mode, t, d⟩ := by
  unfold mkSalesTerritoryRequest
  rw [SalesTerritoryRequest.latitude_validation_ok lat hlat,
      SalesTerritoryRequest.longitude_validation_ok lon hlon, hmode, ht, hd]

/-- C4: for every combination of the remaining arguments, calling
`sales_territory` with `time_minutes=None` and `distance_meters=None` raises
the missing-isochrone `ValueError` before any request is built. -/
theorem sales_territory_none_none_raises (lat lon : ℚ) (city : String)
    (mode : Option String) :
    sales_territory lat lon city mode none none =
      .error "Either time_minutes or distance_meters parameters must be specified" := rfl

/-- C8: if the transport returns HTTP 403, `__generic_fetch` raises the
invalid-API-key error and the transport is invoked exactly once (the call
count advances by exactly one; there is no retry). -/
theorem generic_fetch_403_raises_once (transport : Nat → HttpResponse) (calls : Nat)
    (h : (transport calls).status_code = 403) :
    generic_fetch_counted transport calls = (.error "Invalid API Key", calls + 1) := by
  unfold generic_fetch_counted generic_fetch
  rw [h]
  simp

/-- Witness for C8: a transport that always answers 403, called once. -/
theorem generic_fetch_403_raises_once_witness :
    generic_fetch_counted (fun _ => ⟨403, "denied"⟩) 0 =
      (.error "Invalid API Key", 1) :=
  generic_fetch_403_raises_once (fun _ => ⟨403, "denied"⟩) 0 rfl

/-- C10: for every response with a 2xx status other than 200, `__generic_fetch`
matches no error branch, `raise_for_status` does not raise, and the function
returns `None` instead of the decoded body. -/
theorem generic_fetch_2xx_non200_returns_none (resp : HttpResponse)
    (h200 : resp.status_code ≠ 200)
    (h2xx : 200 ≤ resp.status_code ∧ resp.status_code ≤ 299) :
    generic_fetch resp = .ok none := by
  unfold generic_fetch raise_for_status
  rw [if_neg h200, if_neg (by omega : ¬resp.status_code = 404),
      if_neg (by omega : ¬resp.status_code = 422),
      if_neg (by omega : ¬resp.status_code = 403),
      if_neg (by omega : ¬(400 ≤ resp.status_code ∧ resp.status_code < 600))]

/-- Witness for C10: status 201 yields `None`. -/
theorem generic_fetch_2xx_non200_returns_none_witness :
    (201 ≠ 200) ∧ (200 ≤ 201 ∧ 201 ≤ 299) ∧
      generic_fetch ⟨201, "created"⟩ = .ok none :=
  ⟨by decide, by decide,
   generic_fetch_2xx_non200_returns_none ⟨201, "created"⟩ (by decide) (by decide)⟩

theorem GenericInsightsRequests.price_range_validation_isOk (p : Option Int) :
    isOkE (GenericInsightsRequests.price_range_validation p) = true ↔
      (pyTruthyInt p && decide (p.getD 0 < 1)) = false := by
  unfold GenericInsightsRequests.price_range_validation
  split <;> simp_all [isOkE]

theorem mkGenericInsightsRequests_isOk (city ctype : String)
    (cats : Option (List String)) (p : Option Int) :
    isOkE (mkGenericInsightsRequests city ctype cats p) = true ↔
      isOkE (GenericInsightsRequests.price_range_validation p) = true := by
  unfold mkGenericInsightsRequests
  cases h : GenericInsightsRequests.price_range_validation p <;> simp [isOkE]

/-- Counterexample to C2 as stated: constructing `GenericInsightsRequests`
with `price_range=0` succeeds (the validator's truthiness guard skips `0`),
it does not raise. -/
theorem price_range_zero_accepted :
    isOkE (mkGenericInsightsRequests "Dubai" "restaurants" none (some 0)) = true := rfl

/-- C2 (amended): `price_range` construction succeeds iff the value is absent,
zero (skipped as falsy), or at least 1; only truthy values below 1, i.e.
negative values, raise "Invalid Price Range". -/
theorem price_range_validation_spec :
    (∀ (city ctype : String) (cats : Option (List String)) (p : Int),
      isOkE (mkGenericInsightsRequests city ctype cats (some p)) = true ↔
        (p = 0 ∨ 1 ≤ p)) ∧
    ∀ (city ctype : String) (cats : Option (List String)),
      isOkE (mkGenericInsightsRequests city ctype cats none) = true := by
  refine ⟨fun city ctype cats p => ?_, fun city ctype cats => rfl⟩
  rw [mkGenericInsightsRequests_isOk, GenericInsightsRequests.price_range_validation_isOk]
  simp [pyTruthyInt]
  omega

/-- Counterexample to C6 as stated: an `OperatingHours` whose weekday lists
have length 1 (not 24) still constructs successfully — no length constraint
is enforced. -/
theorem operating_hours_no_length_check :
    isOkE (mkOperatingHours (some [0]) (some [0]) (some [0]) (some [0]) (some [0])
      (some [0]) (some [0])) = true ∧ ([0] : List Int).length ≠ 24 := by decide

/-- C6 (amended): `OperatingHours` construction succeeds iff all 7 weekday
fields are present; each present field may be an integer list of any length
and any values — neither list length (such as 24) nor a numeric range is
enforced. -/
theorem operating_hours_construction_spec
    (su mo tu we th fr sa : Option (List Int)) :
    isOkE (mkOperatingHours su mo tu we th fr sa) = true ↔
      (su.isSome = true ∧ mo.isSome = true ∧ tu.isSome = true ∧ we.isSome = true ∧
       th.isSome = true ∧ fr.isSome = true ∧ sa.isSome = true) := by
  cases su <;> cases mo <;> cases tu <;> cases we <;> cases th <;> cases fr <;> cases sa <;>
    simp [mkOperatingHours, isOkE]

/-- C3: for every latitude/longitude pair, construction of each
Coordinate-bearing request descriptor succeeds with respect to the coordinate
validators iff `-90 ≤ lat ≤ 90` and `-180 ≤ lon ≤ 180`; the boundary values
90, -90, 180, -180 are accepted and 90.0001, -180.0001 are rejected. -/
theorem coordinate_validation_spec (lat lon : ℚ) :
    ((isOkE (mkReverseGeocodeRequest lat lon) = true ↔
        ((-90 ≤ lat ∧ lat ≤ 90) ∧ (-180 ≤ lon ∧ lon ≤ 180))) ∧
     (isOkE (mkSalesTerritoryRequest lat lon "Dubai" (some "driving") (some 30) none) = true ↔
        ((-90 ≤ lat ∧ lat ≤ 90) ∧ (-180 ≤ lon ∧ lon ≤ 180))) ∧
     (isOkE (mkCompetitionRequest lat lon "Dubai" "restaurants" 500 none none) = true ↔
        ((-90 ≤ lat ∧ lat ≤ 90) ∧ (-180 ≤ lon ∧ lon ≤ 180)))) ∧
    (isOkE (mkReverseGeocodeRequest 90 180) = true ∧
     isOkE (mkReverseGeocodeRequest (-90) (-180)) = true ∧
     isOkE (mkSalesTerritoryRequest 90 180 "Dubai" (some "driving") (some 30) none) = true ∧
     isOkE (mkSalesTerritoryRequest (-90) (-180) "Dubai" (some "driving") (some 30) none) = true ∧
     isOkE (mkCompetitionRequest 90 180 "Dubai" "restaurants" 500 none none) = true ∧
     isOkE (mkCompetitionRequest (-90) (-180) "Dubai" "restaurants" 500 none none) = true) ∧
    (isOkE (mkReverseGeocodeRequest (90.0001 : ℚ) 0) = false ∧
     isOkE (mkReverseGeocodeRequest 0 (-180.0001 : ℚ)) = false ∧
     isOkE (mkSalesTerritoryRequest (90.0001 : ℚ) 0 "Dubai" (some "driving") (some 30) none) = false ∧
     isOkE (mkSalesTerritoryRequest 0 (-180.0001 : ℚ) "Dubai" (some "driving") (some 30) none) = false ∧
     isOkE (mkCompetitionRequest (90.0001 : ℚ) 0 "Dubai" "restaurants" 500 none none) = false ∧
     isOkE (mkCompetitionRequest 0 (-180.0001 : ℚ) "Dubai" "restaurants" 500 none none) = false) := by
  have hmode : isOkE (SalesTerritoryRequest.mode_of_mobility_validation (some "driving")) = true := rfl
  have ht30 : isOkE (SalesTerritoryRequest.time_minutes_validation (some 30)) = true := rfl
  have hdn : isOkE (SalesTerritoryRequest.distance_meters_validation none) = true := rfl
  have hr500 : isOkE (CompetitionRequest.radius_meters_validation 500) = true := rfl
  refine ⟨⟨?_, ?_, ?_⟩, by decide, ?_, ?_, ?_, ?_, ?_, ?_⟩
  · rw [mkReverseGeocodeRequest_isOk, rg_latitude_validation_isOk,
        rg_longitude_validation_isOk]
  · rw [mkSalesTerritoryRequest_isOk, st_latitude_validation_isOk,
        st_longitude_validation_isOk]
    simp [hmode, ht30, hdn]
  · rw [mkCompetitionRequest_isOk, cr_latitude_validation_isOk,
        cr_longitude_validation_isOk]
    simp [hr500]
  · simp only [Bool.eq_false_iff, Ne, mkReverseGeocodeRequest_isOk,
      rg_latitude_validation_isOk,
      rg_longitude_validation_isOk]
    norm_num
  · simp only [Bool.eq_false_iff, Ne, mkReverseGeocodeRequest_isOk,
      rg_latitude_validation_isOk,
      rg_longitude_validation_isOk]
    norm_num
  · simp only [Bool.eq_false_iff, Ne, mkSalesTerritoryRequest_isOk,
      st_latitude_validation_isOk,
      st_longitude_validation_isOk]
    norm_num
  · simp only [Bool.eq_false_iff, Ne, mkSalesTerritoryRequest_isOk,
      st_latitude_validation_isOk,
      st_longitude_validation_isOk]
    norm_num
  · simp only [Bool.eq_false_iff, Ne, mkCompetitionRequest_isOk,
      cr_latitude_validation_isOk,
      cr_longitude_validation_isOk]
    norm_num
  · simp only [Bool.eq_false_iff, Ne, mkCompetitionRequest_isOk,
      cr_latitude_validation_isOk,
      cr_longitude_validation_isOk]
    norm_num

/-- C7: construction of a `CompetitionRequest` (and hence a
`nearby_competition` call) raises a validation failure iff `radius_meters`
is outside [1,10000] (with in-range coordinates); 1 and 10000 are accepted,
0 and 10001 are rejected. -/
theorem radius_meters_spec :
    (∀ (lat lon : ℚ) (city ctype : String) (r : Int) (b c : Option (List String)),
      (isOkE (mkCompetitionRequest lat lon city ctype r b c) = true ↔
        ((-90 ≤ lat ∧ lat ≤ 90) ∧ (-180 ≤ lon ∧ lon ≤ 180) ∧ (1 ≤ r ∧ r ≤ 10000))) ∧
      (isOkE (nearby_competition lat lon city ctype r b c) = true ↔
        ((-90 ≤ lat ∧ lat ≤ 90) ∧ (-180 ≤ lon ∧ lon ≤ 180) ∧ (1 ≤ r ∧ r ≤ 10000)))) ∧
    (isOkE (mkCompetitionRequest 25 55 "Dubai" "restaurants" 1 none none) = true ∧
     isOkE (mkCompetitionRequest 25 55 "Dubai" "restaurants" 10000 none none) = true ∧
     isOkE (mkCompetitionRequest 25 55 "Dubai" "restaurants" 0 none none) = false ∧
     isOkE (mkCompetitionRequest 25 55 "Dubai" "restaurants" 10001 none none) = false ∧
     isOkE (nearby_competition 25 55 "Dubai" "restaurants" 1 none none) = true ∧
     isOkE (nearby_competition 25 55 "Dubai" "restaurants" 10000 none none) = true ∧
     isOkE (nearby_competition 25 55 "Dubai" "restaurants" 0 none none) = false ∧
     isOkE (nearby_competition 25 55 "Dubai" "restaurants" 10001 none none) = false) := by
  have hnc : ∀ (lat lon : ℚ) (city ctype : String) (r : Int) (b c : Option (List String)),
      isOkE (nearby_competition lat lon city ctype r b c) =
        isOkE (mkCompetitionRequest lat lon city ctype r none none) := by
    intro lat lon city ctype r b c
    unfold nearby_competition
    cases h : mkCompetitionRequest lat lon city ctype r none none <;> simp [isOkE]
  refine ⟨fun lat lon city ctype r b c => ⟨?_, ?_⟩, by decide⟩
  · rw [mkCompetitionRequest_isOk, cr_latitude_validation_isOk,
        cr_longitude_validation_isOk,
        CompetitionRequest.radius_meters_validation_isOk]
  · rw [hnc, mkCompetitionRequest_isOk, cr_latitude_validation_isOk,
        cr_longitude_validation_isOk,
        CompetitionRequest.radius_meters_validation_isOk]

/-- Counterexample to C1 as stated: a call supplying BOTH `time_minutes=30`
and `distance_meters=800` does not raise any pre-flight failure — the façade
only rejects when both are falsy, and here a request is built. -/
theorem both_isochrone_params_not_rejected :
    isOkE (sales_territory 0 0 "Dubai" (some "driving") (some 30) (some 800)) = true := rfl

/-- C1 (amended): the pre-flight failure fires only when both isochrone
parameters are absent or zero; when both `time_minutes` and `distance_meters`
are supplied (in range, with valid remaining arguments), no
mutual-exclusivity failure is raised — `time_minutes` takes precedence and
the time-based request is built. -/
theorem sales_territory_both_params_time_precedence (lat lon : ℚ) (city : String)
    (t d : Int)
    (hlat : -90 ≤ lat ∧ lat ≤ 90) (hlon : -180 ≤ lon ∧ lon ≤ 180)
    (ht : 1 ≤ t ∧ t ≤ 60) (hd : 1 ≤ d ∧ d ≤ 10000) :
    sales_territory lat lon city (some "driving") (some t) (some d) =
      .ok ⟨some (sociodemographics_url ++ "/sales_territory/time"),
           [("latitude", .pRat lat), ("longitude", .pRat lon), ("city", .pStr city),
            ("mode_of_mobility", .pOptStr (some "driving")), ("time_minutes", .pInt t)]⟩ := by
  have hpt : pyTruthyInt (some t) = true := by
    simp [pyTruthyInt]
    omega
  have hms : pyTruthyStr (some "driving") = true := rfl
  have htv : SalesTerritoryRequest.time_minutes_validation (some t) = .ok (some t) := by
    unfold SalesTerritoryRequest.time_minutes_validation
    have hv : SalesTerritoryRequest.time_minutes_valid t = true := by
      simp [SalesTerritoryRequest.time_minutes_valid]
      omega
    simp [hv]
  have hdv : SalesTerritoryRequest.distance_meters_validation (some d) = .ok (some d) := by
    unfold SalesTerritoryRequest.distance_meters_validation
    have hv : SalesTerritoryRequest.distance_meters_valid d = true := by
      simp [SalesTerritoryRequest.distance_meters_valid]
      omega
    simp [hv]
  have hmk := mkSalesTerritoryRequest_eq_ok lat lon city (some "driving") (some t)
    (some d) hlat hlon rfl htv hdv
  unfold sales_territory
  rw [hmk]
  simp [hpt, hms]

/-- Witness for the amended C1 at a concrete input. -/
theorem sales_territory_both_params_time_precedence_witness :
    sales_territory 0 0 "Dubai" (some "driving") (some 30) (some 800) =
      .ok ⟨some (sociodemographics_url ++ "/sales_territory/time"),
           [("latitude", .pRat 0), ("longitude", .pRat 0), ("city", .pStr "Dubai"),
            ("mode_of_mobility", .pOptStr (some "driving")), ("time_minutes", .pInt 30)]⟩ :=
  sales_territory_both_params_time_precedence 0 0 "Dubai" 30 800
    (by norm_num) (by norm_num) (by norm_num) (by norm_num)

/-- C5: with `time_minutes=30`, passing `mode_of_mobility=None` raises the
mode-required `ValueError` before any request is built, while
`mode_of_mobility="driving"` builds the request targeting
`.../sales_territory/time`. -/
theorem sales_territory_time_requires_mode (lat lon : ℚ) (city : String)
    (hlat : -90 ≤ lat ∧ lat ≤ 90) (hlon : -180 ≤ lon ∧ lon ≤ 180) :
    sales_territory lat lon city none (some 30) none =
      .error "Mode of Mobility parameter must be provided for time-based sales territory derivation" ∧
    sales_territory lat lon city (some "driving") (some 30) none =
      .ok ⟨some (sociodemographics_url ++ "/sales_territory/time"),
           [("latitude", .pRat lat), ("longitude", .pRat lon), ("city", .pStr city),
            ("mode_of_mobility", .pOptStr (some "driving")), ("time_minutes", .pInt 30)]⟩ := by
  have h1 := mkSalesTerritoryRequest_eq_ok lat lon city none (some 30) none
    hlat hlon rfl rfl rfl
  have h2 := mkSalesTerritoryRequest_eq_ok lat lon city (some "driving") (some 30) none
    hlat hlon rfl rfl rfl
  constructor
  · unfold sales_territory
    rw [h1]
    rfl
  · unfold sales_territory
    rw [h2]
    rfl

/-- Witness for C5 at a concrete input. -/
theorem sales_territory_time_requires_mode_witness :
    sales_territory 0 0 "Dubai" none (some 30) none =
      .error "Mode of Mobility parameter must be provided for time-based sales territory derivation" ∧
    sales_territory 0 0 "Dubai" (some "driving") (some 30) none =
      .ok ⟨some (sociodemographics_url ++ "/sales_territory/time"),
           [("latitude", .pRat 0), ("longitude", .pRat 0), ("city", .pStr "Dubai"),
            ("mode_of_mobility", .pOptStr (some "driving")), ("time_minutes", .pInt 30)]⟩ :=
  sales_territory_time_requires_mode 0 0 "Dubai" (by norm_num) (by norm_num)

/-- C9: `0` is treated as absent, not out-of-range: `SalesTerritoryRequest`
constructs successfully with `time_minutes=0` or `distance_meters=0` (the
truthiness guard skips the range check), and
`sales_territory(time_minutes=0, distance_meters=None)` raises the
missing-isochrone error, not a range error. -/
theorem zero_isochrone_treated_as_absent (lat lon : ℚ) (city : String)
    (hlat : -90 ≤ lat ∧ lat ≤ 90) (hlon : -180 ≤ lon ∧ lon ≤ 180) :
    isOkE (mkSalesTerritoryRequest lat lon city (some "driving") (some 0) none) = true ∧
    isOkE (mkSalesTerritoryRequest lat lon city (some "driving") none (some 0)) = true ∧
    ∀ (mode : Option String),
      sales_territory lat lon city mode (some 0) none =
        .error "Either time_minutes or distance_meters parameters must be specified" := by
  refine ⟨?_, ?_, fun mode => rfl⟩
  · rw [mkSalesTerritoryRequest_eq_ok lat lon city (some "driving") (some 0) none
      hlat hlon rfl rfl rfl]
    rfl
  · rw [mkSalesTerritoryRequest_eq_ok lat lon city (some "driving") none (some 0)
      hlat hlon rfl rfl rfl]
    rfl

/-- Witness for C9 at a concrete input. -/
theorem zero_isochrone_treated_as_absent_witness :
    isOkE (mkSalesTerritoryRequest 0 0 "Dubai" (some "driving") (some 0) none) = true ∧
    isOkE (mkSalesTerritoryRequest 0 0 "Dubai" (some "driving") none (some 0)) = true ∧
    ∀ (mode : Option String),
      sales_territory 0 0 "Dubai" mode (some 0) none =
        .error "Either time_minutes or distance_meters parameters must be specified" :=
  zero_isochrone_treated_as_absent 0 0 "Dubai" (by norm_num) (by norm_num)
